import Mathlib

/-!
Shallow embedding of the core of the `ui86/socks5` SOCKS5 proxy server.

Bytes are modelled as `Nat`, byte strings as `List Nat`, and Go strings as
their UTF-8 byte sequences (`List Nat`).  Readers (`io.Reader`) are modelled
as the remaining input stream, and writes to an `io.ReadWriter` are recorded
as the list of byte sequences passed to the individual `Write` calls (one
list element per frame written, since every `WriteTo` issues exactly one
`Write`).  Write errors are not modelled: every recorded write succeeds.
-/

namespace Socks5

/-- Modelled from the spec: the protocol-constant source file of the
repository is not included under `src/`; the values are those of spec §3
(RFC 1928 / RFC 1929).  SOCKS version byte. -/
def Ver : Nat := 0x05

/-- Modelled from the spec: sub-negotiation version byte (§3). -/
def UserPassVer : Nat := 0x01

/-- Modelled from the spec: method code NO_AUTH (§3). -/
def MethodNone : Nat := 0x00

/-- Modelled from the spec: method code USER_PASS (§3). -/
def MethodUsernamePassword : Nat := 0x02

/-- Modelled from the spec: method code NO_ACCEPTABLE (§3). -/
def MethodUnsupportAll : Nat := 0xFF

/-- Modelled from the spec: command CONNECT (§3). -/
def CmdConnect : Nat := 0x01

/-- Modelled from the spec: command BIND (§3). -/
def CmdBind : Nat := 0x02

/-- Modelled from the spec: command UDP_ASSOCIATE (§3). -/
def CmdUDP : Nat := 0x03

/-- Modelled from the spec: address type IPV4 (§3). -/
def ATYPIPv4 : Nat := 0x01

/-- Modelled from the spec: address type DOMAIN (§3). -/
def ATYPDomain : Nat := 0x03

/-- Modelled from the spec: address type IPV6 (§3). -/
def ATYPIPv6 : Nat := 0x04

/-- Modelled from the spec: reply code SUCCESS (§3). -/
def RepSuccess : Nat := 0x00

/-- Modelled from the spec: reply code HOST_UNREACHABLE (§3). -/
def RepHostUnreachable : Nat := 0x04

/-- Modelled from the spec: reply code CMD_NOT_SUPPORTED (§3). -/
def RepCommandNotSupported : Nat := 0x07

/-- Modelled from the spec: user/pass reply status success `0x00` (§3). -/
def UserPassStatusSuccess : Nat := 0x00

/-- Modelled from the spec: user/pass reply status failure `0x01` (§3). -/
def UserPassStatusFailure : Nat := 0x01

/-- `net.IPv6zero`: sixteen zero bytes. -/
def IPv6zero : List Nat := List.replicate 16 0

/-- The typed errors of the package (`ErrVersion`, `ErrUserPassVersion`,
`ErrBadRequest`, `ErrUnsupportCmd`, `ErrUserPassAuth`), together with a
generic I/O short-read error and a generic dial error standing for the
`error` values propagated from the network layer. -/
inductive SErr where
  | errVersion
  | errUserPassVersion
  | errBadRequest
  | errUserPassAuth
  | errUnsupportCmd
  | errShortRead
  | errDial
  deriving DecidableEq, Repr

/-- `io.ReadFull` into a buffer of length `n`: succeeds iff the stream
holds at least `n` bytes, returning the bytes read and the rest. -/
def readN (n : Nat) (input : List Nat) : Option (List Nat × List Nat) :=
  if n ≤ input.length then some (input.take n, input.drop n) else none

structure NegotiationRequest where
  ver : Nat
  nmethods : Nat
  methods : List Nat
  deriving DecidableEq, Repr

structure NegotiationReply where
  ver : Nat
  method : Nat
  deriving DecidableEq, Repr

structure UserPassNegotiationRequest where
  ver : Nat
  ulen : Nat
  uname : List Nat
  plen : Nat
  passwd : List Nat
  deriving DecidableEq, Repr

structure UserPassNegotiationReply where
  ver : Nat
  status : Nat
  deriving DecidableEq, Repr

structure Request where
  ver : Nat
  cmd : Nat
  rsv : Nat
  atyp : Nat
  dstAddr : List Nat
  dstPort : List Nat
  deriving DecidableEq, Repr

structure Reply where
  ver : Nat
  rep : Nat
  rsv : Nat
  atyp : Nat
  bndAddr : List Nat
  bndPort : List Nat
  deriving DecidableEq, Repr

structure Datagram where
  rsv : List Nat
  frag : Nat
  atyp : Nat
  dstAddr : List Nat
  dstPort : List Nat
  data : List Nat
  deriving DecidableEq, Repr

/-- `NewNegotiationRequestFrom` (wire decoder): read 2 bytes, check the
version, reject `NMETHODS = 0`, then read the method list. -/
def NewNegotiationRequestFrom (input : List Nat) :
    Except SErr (NegotiationRequest × List Nat) :=
  match input with
  | b0 :: b1 :: rest =>
    if b0 ≠ Ver then .error .errVersion
    else if b1 = 0 then .error .errBadRequest
    else
      match readN b1 rest with
      | none => .error .errShortRead
      | some (ms, rest1) => .ok (⟨b0, b1, ms⟩, rest1)
  | _ => .error .errShortRead

/-- `NewNegotiationReply`. -/
def NewNegotiationReply (method : Nat) : NegotiationReply :=
  ⟨Ver, method⟩

/-- The single `Write` issued by `NegotiationReply.WriteTo`. -/
def NegotiationReply.bytes (r : NegotiationReply) : List Nat :=
  [r.ver, r.method]

/-- `NewUserPassNegotiationRequestFrom` (wire decoder): read 2 bytes, check
the sub-negotiation version, reject `ULEN = 0`, read `ULEN+1` bytes
(username plus the `PLEN` byte), reject `PLEN = 0`, then read the
password. -/
def NewUserPassNegotiationRequestFrom (input : List Nat) :
    Except SErr (UserPassNegotiationRequest × List Nat) :=
  match input with
  | b0 :: b1 :: rest =>
    if b0 ≠ UserPassVer then .error .errUserPassVersion
    else if b1 = 0 then .error .errBadRequest
    else
      match readN (b1 + 1) rest with
      | none => .error .errShortRead
      | some (ub, rest1) =>
        if ub.getD b1 0 = 0 then .error .errBadRequest
        else
          match readN (ub.getD b1 0) rest1 with
          | none => .error .errShortRead
          | some (p, rest2) =>
            .ok (⟨b0, b1, ub.take b1, ub.getD b1 0, p⟩, rest2)
  | _ => .error .errShortRead

/-- `NewUserPassNegotiationReply`. -/
def NewUserPassNegotiationReply (status : Nat) : UserPassNegotiationReply :=
  ⟨UserPassVer, status⟩

/-- The single `Write` issued by `UserPassNegotiationReply.WriteTo`. -/
def UserPassNegotiationReply.bytes (r : UserPassNegotiationReply) : List Nat :=
  [r.ver, r.status]

/-- Shared tail of `NewRequestFrom`: read the 2 port bytes and build the
request. -/
def finishRequest (b0 b1 b2 b3 : Nat) (addr rest : List Nat) :
    Except SErr (Request × List Nat) :=
  match readN 2 rest with
  | none => .error .errShortRead
  | some (port, rest1) => .ok (⟨b0, b1, b2, b3, addr, port⟩, rest1)

/-- `NewRequestFrom` (wire decoder): read 4 header bytes, check the
version, then branch on `ATYP` (4 bytes for IPv4, 16 for IPv6, a non-zero
1-byte length then that many bytes for DOMAIN with the prefix retained,
anything else is a bad request), then the 2 port bytes. -/
def NewRequestFrom (input : List Nat) : Except SErr (Request × List Nat) :=
  match input with
  | b0 :: b1 :: b2 :: b3 :: rest =>
    if b0 ≠ Ver then .error .errVersion
    else if b3 = ATYPIPv4 then
      match readN 4 rest with
      | none => .error .errShortRead
      | some (addr, rest1) => finishRequest b0 b1 b2 b3 addr rest1
    else if b3 = ATYPIPv6 then
      match readN 16 rest with
      | none => .error .errShortRead
      | some (addr, rest1) => finishRequest b0 b1 b2 b3 addr rest1
    else if b3 = ATYPDomain then
      match rest with
      | [] => .error .errShortRead
      | l :: rest1 =>
        if l = 0 then .error .errBadRequest
        else
          match readN l rest1 with
          | none => .error .errShortRead
          | some (a, rest2) => finishRequest b0 b1 b2 b3 (l :: a) rest2
    else .error .errBadRequest
  | _ => .error .errShortRead

/-- `NewReply`: when `ATYP` is DOMAIN the bound address is prefixed with
its 1-byte length. -/
def NewReply (rep atyp : Nat) (bndaddr bndport : List Nat) : Reply :=
  if atyp = ATYPDomain then
    ⟨Ver, rep, 0x00, atyp, bndaddr.length :: bndaddr, bndport⟩
  else
    ⟨Ver, rep, 0x00, atyp, bndaddr, bndport⟩

/-- The single `Write` issued by `Reply.WriteTo`. -/
def Reply.bytes (r : Reply) : List Nat :=
  [r.ver, r.rep, r.rsv, r.atyp] ++ r.bndAddr ++ r.bndPort

/-- `NewDatagramFromBytes` (whole-packet decoder).  Mirrors the running
`minl` bound of the source: 4 header bytes, the `ATYP`-dependent address
(with the DOMAIN length prefix retained in `dstAddr`), 2 port bytes, and a
*strictly positive* remainder as payload (`n <= minl` is rejected). -/
def NewDatagramFromBytes (bb : List Nat) : Except SErr Datagram :=
  match bb with
  | b0 :: b1 :: b2 :: b3 :: rest =>
    if b3 = ATYPIPv4 then
      if rest.length < 4 then .error .errBadRequest
      else finishDatagram b0 b1 b2 b3 (rest.take 4) (rest.drop 4)
    else if b3 = ATYPIPv6 then
      if rest.length < 16 then .error .errBadRequest
      else finishDatagram b0 b1 b2 b3 (rest.take 16) (rest.drop 16)
    else if b3 = ATYPDomain then
      match rest with
      | [] => .error .errBadRequest
      | l :: rest1 =>
        if l = 0 then .error .errBadRequest
        else if rest1.length < l then .error .errBadRequest
        else finishDatagram b0 b1 b2 b3 (l :: rest1.take l) (rest1.drop l)
    else .error .errBadRequest
  | _ => .error .errBadRequest
where
  /-- Port-and-payload step: `minl += 2; if n <= minl` rejects, so at
  least one payload byte is required. -/
  finishDatagram (b0 b1 b2 b3 : Nat) (addr rest : List Nat) :
      Except SErr Datagram :=
    if rest.length ≤ 2 then .error .errBadRequest
    else .ok ⟨[b0, b1], b2, b3, addr, rest.take 2, rest.drop 2⟩

/-- `NewDatagram`: when `ATYP` is DOMAIN the destination address is
prefixed with its 1-byte length. -/
def NewDatagram (atyp : Nat) (dstaddr dstport data : List Nat) : Datagram :=
  if atyp = ATYPDomain then
    ⟨[0x00, 0x00], 0x00, atyp, dstaddr.length :: dstaddr, dstport, data⟩
  else
    ⟨[0x00, 0x00], 0x00, atyp, dstaddr, dstport, data⟩

/-- `Datagram.Bytes`: concatenation of all fields. -/
def Datagram.Bytes (d : Datagram) : List Nat :=
  d.rsv ++ [d.frag, d.atyp] ++ d.dstAddr ++ d.dstPort ++ d.data

/-- A `net.IP` as far as the allow-list sees it: identified by its
canonical string form `ip.String()`. -/
structure NetIP where
  canon : String

/-- A `*net.IPNet` as far as the allow-list sees it: a CIDR range with its
membership test `Contains`. -/
structure IPNet where
  contains : NetIP → Bool

/-- The `Server` of the package (runtime-only fields such as the listener,
the UDP socket, the worker channel and the runner group are not part of
the embedding). -/
structure Server where
  userName : List Nat
  password : List Nat
  method : Nat
  supportedCommands : List Nat
  tcpTimeout : Int
  udpTimeout : Int
  limitUDP : Bool
  allowedIPs : List String
  allowedCIDRs : List IPNet

/-- The whitelist-parsing state built by the loop in `NewClassicServer`:
the exact-IP set (canonical string forms; modelled as the list of stored
keys) and the CIDR list. -/
structure ParsedWhitelist where
  allowedIPs : List String
  allowedCIDRs : List IPNet

/-- One iteration of the whitelist loop of `NewClassicServer`: trim the
entry, skip it when empty, try `net.ParseCIDR` first, then `net.ParseIP`
(storing the canonical form), and drop invalid entries with a warning. -/
def parseWhitelistEntry (trim : String → String)
    (parseCIDR : String → Option IPNet) (parseIP : String → Option NetIP)
    (acc : ParsedWhitelist) (s : String) : ParsedWhitelist :=
  let s := trim s
  if s = "" then acc
  else
    match parseCIDR s with
    | some ipNet => { acc with allowedCIDRs := acc.allowedCIDRs ++ [ipNet] }
    | none =>
      match parseIP s with
      | some ip => { acc with allowedIPs := acc.allowedIPs ++ [ip.canon] }
      | none => acc

/-- `NewClassicServer`.  `net.SplitHostPort` and `Resolve` are abstracted
by their outcomes (`hostPortOk`, `resolvedAddr`); when either fails the
constructor returns the error (here `none`).  The whitelist parsing
helpers `strings.TrimSpace`, `net.ParseCIDR` and `net.ParseIP` are oracle
parameters. -/
def NewClassicServer (hostPortOk : Bool) (resolvedAddr : Option String)
    (username password : List Nat) (tcpTimeout udpTimeout : Int)
    (whiteList : List String) (trim : String → String)
    (parseCIDR : String → Option IPNet) (parseIP : String → Option NetIP) :
    Option Server :=
  if !hostPortOk then none
  else
    match resolvedAddr with
    | none => none
    | some _ =>
      let m := if username ≠ [] ∧ password ≠ [] then MethodUsernamePassword
               else MethodNone
      let w := whiteList.foldl (parseWhitelistEntry trim parseCIDR parseIP)
        ⟨[], []⟩
      some
        { userName := username
          password := password
          method := m
          supportedCommands := [CmdConnect, CmdUDP]
          tcpTimeout := tcpTimeout
          udpTimeout := udpTimeout
          limitUDP := false
          allowedIPs := w.allowedIPs
          allowedCIDRs := w.allowedCIDRs }

/-- `Server.IsAllowed`: allow everything when both lists are empty,
otherwise an exact match on the canonical string form or any containing
CIDR admits the IP. -/
def Server.IsAllowed (s : Server) (ip : NetIP) : Bool :=
  if s.allowedIPs.length = 0 ∧ s.allowedCIDRs.length = 0 then true
  else if s.allowedIPs.contains ip.canon then true
  else s.allowedCIDRs.any (fun ipNet => ipNet.contains ip)

/-- The writes of the method-selection phase of `Negotiate`: when the
client's list does not contain the server method, first a
`NO_ACCEPTABLE` reply, then — unconditionally — a reply carrying the
server method. -/
def negotiationPhaseWrites (s : Server) (rq : NegotiationRequest) :
    List (List Nat) :=
  (if rq.methods.any (fun m => m = s.method) then []
   else [(NewNegotiationReply MethodUnsupportAll).bytes]) ++
  [(NewNegotiationReply s.method).bytes]

/-- The sub-negotiation (AUTHENTICATING) phase of `Negotiate`: nothing
when the server method is not USER_PASS; otherwise decode a
`UserPassNegotiationRequest` and compare credentials, replying `0x01` and
failing with `ErrUserPassAuth` on mismatch, replying `0x00` on match. -/
def negotiateAuth (s : Server) (input : List Nat) :
    List (List Nat) × Except SErr (List Nat) :=
  if s.method = MethodUsernamePassword then
    match NewUserPassNegotiationRequestFrom input with
    | .error e => ([], .error e)
    | .ok (urq, rest) =>
      if urq.uname ≠ s.userName ∨ urq.passwd ≠ s.password then
        ([(NewUserPassNegotiationReply UserPassStatusFailure).bytes],
          .error .errUserPassAuth)
      else
        ([(NewUserPassNegotiationReply UserPassStatusSuccess).bytes], .ok rest)
  else ([], .ok input)

/-- `Server.Negotiate` over an input stream: decode the
`NegotiationRequest`, write the method-selection replies, then run the
sub-negotiation phase.  Returns the writes and either the remaining input
or the error. -/
def Server.Negotiate (s : Server) (input : List Nat) :
    List (List Nat) × Except SErr (List Nat) :=
  match NewNegotiationRequestFrom input with
  | .error e => ([], .error e)
  | .ok (rq, rest) =>
    let a := negotiateAuth s rest
    (negotiationPhaseWrites s rq ++ a.1, a.2)

/-- `Server.GetRequest`: decode a `Request`; when its command is not among
the supported commands, write a `CMD_NOT_SUPPORTED` reply mirroring the
request's address family and fail with `ErrUnsupportCmd`. -/
def Server.GetRequest (s : Server) (input : List Nat) :
    List (List Nat) × Except SErr (Request × List Nat) :=
  match NewRequestFrom input with
  | .error e => ([], .error e)
  | .ok (r, rest) =>
    if s.supportedCommands.contains r.cmd then ([], .ok (r, rest))
    else
      let p :=
        if r.atyp = ATYPIPv4 ∨ r.atyp = ATYPDomain then
          NewReply RepCommandNotSupported ATYPIPv4 [0x00, 0x00, 0x00, 0x00]
            [0x00, 0x00]
        else
          NewReply RepCommandNotSupported ATYPIPv6 IPv6zero [0x00, 0x00]
      ([p.bytes], .error .errUnsupportCmd)

/-- A `net.IP` as the reply-building code sees it: `To4` yields the 4-byte
form when the IP is an IPv4 address, and `raw` is the byte form stored in
the address structure (16 bytes for a v6 address). -/
structure GoIP where
  to4 : Option (List Nat)
  raw : List Nat

/-- A `*net.TCPAddr` / `*net.UDPAddr`: IP and port. -/
structure SockAddr where
  ip : GoIP
  port : Nat

/-- An outbound connection as `Connect` sees it: the result of the
`LocalAddr()` type assertion to `*net.TCPAddr` (`none` when the assertion
fails and the textual fallback runs) and the textual local address. -/
structure ConnT where
  localTCPAddr : Option SockAddr
  localAddrString : String

/-- `binary.BigEndian.PutUint16` of a Go `int` port: the port truncated to
16 bits, big-endian. -/
def portBytes (p : Nat) : List Nat :=
  [p % 65536 / 256, p % 256]

/-- `Request.Connect` (src/internal/core/connect.go).  `DialTCP` is
abstracted by its outcome `dialResult`; the textual-address fallback
helper `ParseAddress` (defensive code, not reachable for real TCP
sockets) is an oracle.  Returns the writes and either the dialed
connection or the error. -/
def Request.Connect (r : Request) (dialResult : Option ConnT)
    (parseAddress : String → Except SErr (Nat × List Nat × List Nat)) :
    List (List Nat) × Except SErr ConnT :=
  match dialResult with
  | none =>
    let p :=
      if r.atyp = ATYPIPv4 ∨ r.atyp = ATYPDomain then
        NewReply RepHostUnreachable ATYPIPv4 [0x00, 0x00, 0x00, 0x00]
          [0x00, 0x00]
      else
        NewReply RepHostUnreachable ATYPIPv6 IPv6zero [0x00, 0x00]
    ([p.bytes], .error .errDial)
  | some rc =>
    match rc.localTCPAddr with
    | some ta =>
      let ap : Nat × List Nat :=
        match ta.ip.to4 with
        | some ip4 => (ATYPIPv4, ip4)
        | none => (ATYPIPv6, ta.ip.raw)
      ([(NewReply RepSuccess ap.1 ap.2 (portBytes ta.port)).bytes], .ok rc)
    | none =>
      match parseAddress rc.localAddrString with
      | .error e => ([], .error e)
      | .ok (a, addr, port) =>
        let addr1 := if a = ATYPDomain then addr.drop 1 else addr
        ([(NewReply RepSuccess a addr1 port).bytes], .ok rc)

/-- A `chan byte` used only as a close signal, as stored in
`AssociatedUDP`: `true` when the channel has been closed.  A Go `nil`
channel is modelled as `none` in an `Option Channel`. -/
def Channel := Bool

/-- Go `select` with a single `case <-ch` and a `default`: the receive
case fires iff the channel is non-nil and closed (its only senders close
it). -/
def chanRecvReady : Option Channel → Bool
  | none => false
  | some closed => closed

/-- A connected outbound UDP socket as `UDPHandle` sees it: its local
address string, and whether a `Write` of the payload succeeds. -/
structure ConnU where
  localAddr : String
  remoteAddr : String
  writeOk : Bool

/-- The `UDPExchange` record: client address (canonical string) and the
outbound connection. -/
structure UDPExchangeT where
  clientAddr : String
  remoteConn : ConnU

/-- The three concurrent tables read and written by `UDPHandle`:
`AssociatedUDP` (client endpoint → close channel), `UDPExchanges`
(flow key → exchange) and `UDPSrc` (flow key → local bind address).
`sync.Map.Store` is modelled by prepending, `Load` by `List.lookup`. -/
structure UDPState where
  associatedUDP : List (String × Channel)
  udpExchanges : List (String × UDPExchangeT)
  udpSrc : List (String × String)

/-- The errors `UDPHandle` can return. -/
inductive UDPErr where
  | notAssociated (src : String)
  | assocClosed
  | writeFailed
  | dialFailed
  deriving DecidableEq, Repr

/-- The observable outcome of one `UDPHandle` call: the returned error (if
any), the updated tables, the channel variable `ch` once computed
(`none` when the call failed before computing it), the payload written to
the origin socket (when one was), and the channel captured by the spawned
upstream-reader goroutine (when one was spawned). -/
structure HandleOut where
  result : Except UDPErr Unit
  state : UDPState
  ch : Option (Option Channel)
  wrotePayload : Option (List Nat)
  spawnedReader : Option (Option Channel)

/-- The `send` closure of `UDPHandle`: a `select` on the association
channel; when the receive is ready the send is aborted with
"Association closed", otherwise the payload is written. -/
def udpSend (ch : Option Channel) (conn : ConnU) : Except UDPErr Unit :=
  if chanRecvReady ch then .error .assocClosed
  else if conn.writeOk then .ok () else .error .writeFailed

/-- One iteration of the upstream-reader goroutine reaches its `select`:
it returns (aborts) iff the association channel's receive is ready. -/
def upstreamReaderAborts (ch : Option Channel) : Bool :=
  chanRecvReady ch

/-- The body of `UDPHandle` after the channel variable has been computed:
reuse an existing exchange, or look up a cached local bind, dial (with a
no-local retry), record the local bind when none was cached, send, record
the exchange, and spawn the upstream reader. -/
def udpHandleCore (s : Server) (st : UDPState) (src : String) (d : Datagram)
    (dst : String) (dial : String → String → Option ConnU)
    (ch : Option Channel) : HandleOut :=
  match (st.udpExchanges.lookup (src ++ dst)) with
  | some ue =>
    match udpSend ch ue.remoteConn with
    | .error e => ⟨.error e, st, some ch, none, none⟩
    | .ok _ => ⟨.ok (), st, some ch, some d.data, none⟩
  | none =>
    let laddr0 := (st.udpSrc.lookup (src ++ dst)).getD ""
    let dialed : Option (ConnU × String) :=
      match dial laddr0 dst with
      | some rc => some (rc, laddr0)
      | none =>
        match dial "" dst with
        | some rc => some (rc, "")
        | none => none
    match dialed with
    | none => ⟨.error .dialFailed, st, some ch, none, none⟩
    | some (rc, laddr) =>
      let st1 :=
        if laddr = "" then
          { st with udpSrc := (src ++ dst, rc.localAddr) :: st.udpSrc }
        else st
      let ue : UDPExchangeT := ⟨src, rc⟩
      match udpSend ch ue.remoteConn with
      | .error e => ⟨.error e, st1, some ch, none, none⟩
      | .ok _ =>
        let st2 :=
          { st1 with udpExchanges := (src ++ dst, ue) :: st1.udpExchanges }
        ⟨.ok (), st2, some ch, some d.data, some ch⟩

/-- `DefaultHandle.UDPHandle`.  `addr.String()` is passed as `src`, the
missing `Datagram.Address` helper's result as `dst`, and `DialUDP` as the
oracle `dial`.  When `LimitUDP` is set, a missing association is the
"not associated" error; otherwise the channel variable keeps its zero
value `nil`. -/
def Server.UDPHandle (s : Server) (st : UDPState) (src : String)
    (d : Datagram) (dst : String) (dial : String → String → Option ConnU) :
    HandleOut :=
  if s.limitUDP then
    match st.associatedUDP.lookup src with
    | none => ⟨.error (.notAssociated src), st, none, none, none⟩
    | some c => udpHandleCore s st src d dst dial (some c)
  else udpHandleCore s st src d dst dial none

/-- C1: `IsAllowed(ip)` returns true when both the exact-IP set and the
CIDR list are empty; otherwise it returns true iff the IP's canonical
string form is in the exact set or some CIDR in the list contains it. -/
theorem c1_isAllowed (s : Server) (ip : NetIP) :
    (s.allowedIPs = [] ∧ s.allowedCIDRs = [] → s.IsAllowed ip = true) ∧
    (¬(s.allowedIPs = [] ∧ s.allowedCIDRs = []) →
      (s.IsAllowed ip = true ↔
        s.allowedIPs.contains ip.canon = true ∨
          s.allowedCIDRs.any (fun ipNet => ipNet.contains ip) = true)) := by
  constructor
  · rintro ⟨h1, h2⟩
    simp [Server.IsAllowed, h1, h2]
  · intro h
    have h' : ¬(s.allowedIPs.length = 0 ∧ s.allowedCIDRs.length = 0) := by
      simpa [List.length_eq_zero] using h
    simp only [Server.IsAllowed, if_neg h']
    by_cases hc : s.allowedIPs.contains ip.canon
    · simp [hc]
    · simp [hc]

/-- Witness for C1 at a server whose exact set is `{"10.0.0.7"}` with no
CIDRs, and the IP `10.0.0.7`. -/
theorem c1_isAllowed_witness :
    (Server.IsAllowed
        ⟨[], [], MethodNone, [CmdConnect, CmdUDP], 0, 0, false,
          ["10.0.0.7"], []⟩ ⟨"10.0.0.7"⟩ = true ↔
      (["10.0.0.7"].contains "10.0.0.7" = true ∨
        ([] : List IPNet).any (fun ipNet => ipNet.contains ⟨"10.0.0.7"⟩) =
          true)) :=
  (c1_isAllowed
      ⟨[], [], MethodNone, [CmdConnect, CmdUDP], 0, 0, false,
        ["10.0.0.7"], []⟩ ⟨"10.0.0.7"⟩).2 (by simp)

/-- C2: a server built by `NewClassicServer` selects the `USER_PASS`
method iff both the configured username and password are non-empty; in
every other case it selects `NO_AUTH`. -/
theorem c2_newClassicServer_method (hostPortOk : Bool)
    (resolvedAddr : Option String) (username password : List Nat)
    (tcpTimeout udpTimeout : Int) (whiteList : List String)
    (trim : String → String) (parseCIDR : String → Option IPNet)
    (parseIP : String → Option NetIP) (s : Server)
    (h : NewClassicServer hostPortOk resolvedAddr username password
        tcpTimeout udpTimeout whiteList trim parseCIDR parseIP = some s) :
    (s.method = MethodUsernamePassword ↔ username ≠ [] ∧ password ≠ []) ∧
    (username = [] ∨ password = [] → s.method = MethodNone) := by
  cases hostPortOk with
  | false => simp [NewClassicServer] at h
  | true =>
    cases resolvedAddr with
    | none => simp [NewClassicServer] at h
    | some a =>
      simp only [NewClassicServer, Bool.not_true, Bool.false_eq_true,
        if_false, Option.some.injEq] at h
      have hm : s.method =
          if username ≠ [] ∧ password ≠ [] then MethodUsernamePassword
          else MethodNone := by rw [← h]
      by_cases hup : username ≠ [] ∧ password ≠ []
      · rw [hm, if_pos hup]
        constructor
        · simp [hup]
        · rintro (h1 | h2)
          · exact absurd h1 hup.1
          · exact absurd h2 hup.2
      · rw [hm, if_neg hup]
        constructor
        · constructor
          · intro hx
            exact absurd hx (by decide)
          · intro hc
            exact absurd hc hup
        · intro _
          rfl

/-- Witness for C2: username `"a"`, password `"b"` (both non-empty) yield
the `USER_PASS` method. -/
theorem c2_newClassicServer_method_witness :
    ((Server.method
        { userName := [97], password := [98],
          method := MethodUsernamePassword,
          supportedCommands := [CmdConnect, CmdUDP], tcpTimeout := 0,
          udpTimeout := 60, limitUDP := false, allowedIPs := [],
          allowedCIDRs := [] } = MethodUsernamePassword ↔
        ([97] : List Nat) ≠ [] ∧ ([98] : List Nat) ≠ []) ∧
      (([97] : List Nat) = [] ∨ ([98] : List Nat) = [] →
        Server.method
          { userName := [97], password := [98],
            method := MethodUsernamePassword,
            supportedCommands := [CmdConnect, CmdUDP], tcpTimeout := 0,
            udpTimeout := 60, limitUDP := false, allowedIPs := [],
            allowedCIDRs := [] } = MethodNone)) :=
  c2_newClassicServer_method true (some "0.0.0.0:1080") [97] [98] 0 60 []
    id (fun _ => none) (fun _ => none) _ rfl

/-- C3: with method `USER_PASS`, a decoded `UserPassRequest` whose
credentials differ from the configured ones makes `Negotiate` write a
`UserPassReply` with status `0x01` and return `ErrUserPassAuth`; when both
match it writes status `0x00` and returns no error. -/
theorem c3_negotiate_userpass (s : Server) (input rest rest2 : List Nat)
    (rq : NegotiationRequest) (urq : UserPassNegotiationRequest)
    (hm : s.method = MethodUsernamePassword)
    (h1 : NewNegotiationRequestFrom input = .ok (rq, rest))
    (h2 : NewUserPassNegotiationRequestFrom rest = .ok (urq, rest2)) :
    (urq.uname ≠ s.userName ∨ urq.passwd ≠ s.password →
      s.Negotiate input =
        (negotiationPhaseWrites s rq ++ [[UserPassVer, UserPassStatusFailure]],
          .error .errUserPassAuth)) ∧
    (urq.uname = s.userName → urq.passwd = s.password →
      s.Negotiate input =
        (negotiationPhaseWrites s rq ++ [[UserPassVer, UserPassStatusSuccess]],
          .ok rest2)) := by
  constructor
  · intro hne
    simp [Server.Negotiate, h1, negotiateAuth, hm, h2, hne,
      NewUserPassNegotiationReply, UserPassNegotiationReply.bytes]
  · intro hu hp
    simp [Server.Negotiate, h1, negotiateAuth, hm, h2, hu, hp,
      NewUserPassNegotiationReply, UserPassNegotiationReply.bytes]

/-- Witness for C3: server credentials `admin`/`s3cret`, client sends
`admin`/`wrong`; the failure reply `01 01` is written and the result is
`ErrUserPassAuth`. -/
theorem c3_negotiate_userpass_witness :
    Server.Negotiate
        ⟨[97, 100, 109, 105, 110], [115, 51, 99, 114, 101, 116],
          MethodUsernamePassword, [CmdConnect, CmdUDP], 0, 0, false, [], []⟩
        [5, 1, 2, 1, 5, 97, 100, 109, 105, 110, 5, 119, 114, 111, 110, 103] =
      (negotiationPhaseWrites
          ⟨[97, 100, 109, 105, 110], [115, 51, 99, 114, 101, 116],
            MethodUsernamePassword, [CmdConnect, CmdUDP], 0, 0, false, [], []⟩
          ⟨5, 1, [2]⟩ ++ [[UserPassVer, UserPassStatusFailure]],
        .error .errUserPassAuth) :=
  (c3_negotiate_userpass
      ⟨[97, 100, 109, 105, 110], [115, 51, 99, 114, 101, 116],
        MethodUsernamePassword, [CmdConnect, CmdUDP], 0, 0, false, [], []⟩
      [5, 1, 2, 1, 5, 97, 100, 109, 105, 110, 5, 119, 114, 111, 110, 103]
      [1, 5, 97, 100, 109, 105, 110, 5, 119, 114, 111, 110, 103] []
      ⟨5, 1, [2]⟩ ⟨1, 5, [97, 100, 109, 105, 110], 5, [119, 114, 111, 110, 103]⟩
      rfl (by rfl) (by rfl)).1
    (by simp)

/-- C4: a decoded request whose command is not CONNECT or UDP_ASSOCIATE
makes `GetRequest` write a `CMD_NOT_SUPPORTED` reply mirroring the
request's address family (IPv4 zeros for IPv4/DOMAIN, IPv6 zeros for
IPv6) and return the unsupported-command error. -/
theorem c4_getRequest_unsupported (s : Server) (input rest : List Nat)
    (r : Request) (hsc : s.supportedCommands = [CmdConnect, CmdUDP])
    (hr : NewRequestFrom input = .ok (r, rest))
    (hc1 : r.cmd ≠ CmdConnect) (hc2 : r.cmd ≠ CmdUDP) :
    (r.atyp = ATYPIPv4 ∨ r.atyp = ATYPDomain →
      s.GetRequest input =
        ([[Ver, RepCommandNotSupported, 0x00, ATYPIPv4, 0, 0, 0, 0, 0, 0]],
          .error .errUnsupportCmd)) ∧
    (r.atyp = ATYPIPv6 →
      s.GetRequest input =
        ([[Ver, RepCommandNotSupported, 0x00, ATYPIPv6] ++ IPv6zero ++ [0, 0]],
          .error .errUnsupportCmd)) := by
  have hmem : r.cmd ∉ s.supportedCommands := by
    rw [hsc]
    simp [hc1, hc2]
  constructor
  · rintro (h4 | hd)
    · simp [Server.GetRequest, hr, hmem, h4, NewReply, Reply.bytes,
        ATYPIPv4, ATYPDomain]
    · simp [Server.GetRequest, hr, hmem, hd, NewReply, Reply.bytes,
        ATYPIPv4, ATYPDomain]
  · intro h6
    simp [Server.GetRequest, hr, hmem, h6, NewReply, Reply.bytes,
      ATYPIPv4, ATYPDomain, ATYPIPv6]

/-- Witness for C4: the BIND request
`05 02 00 01 7F 00 00 01 00 50` yields the reply
`05 07 00 01 00 00 00 00 00 00` and `ErrUnsupportCmd`. -/
theorem c4_getRequest_unsupported_witness :
    Server.GetRequest
        ⟨[], [], MethodNone, [CmdConnect, CmdUDP], 0, 0, false, [], []⟩
        [5, 2, 0, 1, 127, 0, 0, 1, 0, 80] =
      ([[Ver, RepCommandNotSupported, 0x00, ATYPIPv4, 0, 0, 0, 0, 0, 0]],
        .error .errUnsupportCmd) :=
  (c4_getRequest_unsupported
      ⟨[], [], MethodNone, [CmdConnect, CmdUDP], 0, 0, false, [], []⟩
      [5, 2, 0, 1, 127, 0, 0, 1, 0, 80] []
      ⟨5, 2, 0, 1, [127, 0, 0, 1], [0, 80]⟩ rfl (by rfl) (by decide)
      (by decide)).1
    (Or.inl rfl)

/-- C9: when the client's method list does not include the server's
method, `Negotiate` writes a `NO_ACCEPTABLE` reply and then immediately a
second negotiation reply carrying the server's method, and continues the
handshake (the result is that of the sub-negotiation phase, not an error
raised at the rejection point). -/
theorem c9_negotiate_no_acceptable (s : Server) (input rest : List Nat)
    (rq : NegotiationRequest)
    (h1 : NewNegotiationRequestFrom input = .ok (rq, rest))
    (h2 : rq.methods.any (fun m => m = s.method) = false) :
    s.Negotiate input =
      ([Ver, MethodUnsupportAll] :: [Ver, s.method] ::
          (negotiateAuth s rest).1,
        (negotiateAuth s rest).2) := by
  simp [Server.Negotiate, h1, negotiationPhaseWrites, h2,
    NewNegotiationReply, NegotiationReply.bytes]

/-- Witness for C9: a no-auth server and a client offering only method
`0x02`; both replies are written and the handshake continues with an `ok`
result. -/
theorem c9_negotiate_no_acceptable_witness :
    Server.Negotiate
        ⟨[], [], MethodNone, [CmdConnect, CmdUDP], 0, 0, false, [], []⟩
        [5, 1, 2] =
      ([Ver, MethodUnsupportAll] ::
          [Ver,
            Server.method
              ⟨[], [], MethodNone, [CmdConnect, CmdUDP], 0, 0, false, [],
                []⟩] ::
          (negotiateAuth
              ⟨[], [], MethodNone, [CmdConnect, CmdUDP], 0, 0, false, [], []⟩
              []).1,
        (negotiateAuth
            ⟨[], [], MethodNone, [CmdConnect, CmdUDP], 0, 0, false, [], []⟩
            []).2) :=
  c9_negotiate_no_acceptable
    ⟨[], [], MethodNone, [CmdConnect, CmdUDP], 0, 0, false, [], []⟩
    [5, 1, 2] [] ⟨5, 1, [2]⟩ (by rfl) (by decide)

/-- C5: `Connect` writes exactly one reply.  On dial failure it is
`HOST_UNREACHABLE` with zeroed address/port mirroring the request's
address family and the error is returned; on success it is `SUCCESS`
carrying the dialed socket's local endpoint (IPv4 form when the local IP
is a v4 address, IPv6 form otherwise) and the connection is returned. -/
theorem c5_connect (r : Request) (dialResult : Option ConnT)
    (parseAddress : String → Except SErr (Nat × List Nat × List Nat)) :
    (dialResult = none →
      (r.atyp = ATYPIPv4 ∨ r.atyp = ATYPDomain →
        r.Connect dialResult parseAddress =
          ([[Ver, RepHostUnreachable, 0x00, ATYPIPv4, 0, 0, 0, 0, 0, 0]],
            .error .errDial)) ∧
      (r.atyp = ATYPIPv6 →
        r.Connect dialResult parseAddress =
          ([[Ver, RepHostUnreachable, 0x00, ATYPIPv6] ++ IPv6zero ++ [0, 0]],
            .error .errDial))) ∧
    (∀ rc ta, dialResult = some rc → rc.localTCPAddr = some ta →
      (∀ ip4, ta.ip.to4 = some ip4 →
        r.Connect dialResult parseAddress =
          ([[Ver, RepSuccess, 0x00, ATYPIPv4] ++ ip4 ++ portBytes ta.port],
            .ok rc)) ∧
      (ta.ip.to4 = none →
        r.Connect dialResult parseAddress =
          ([[Ver, RepSuccess, 0x00, ATYPIPv6] ++ ta.ip.raw ++
              portBytes ta.port],
            .ok rc))) := by
  constructor
  · intro hd
    constructor
    · rintro (h4 | hdom)
      · simp [Request.Connect, hd, h4, NewReply, Reply.bytes, ATYPIPv4,
          ATYPDomain]
      · simp [Request.Connect, hd, hdom, NewReply, Reply.bytes, ATYPIPv4,
          ATYPDomain]
    · intro h6
      simp [Request.Connect, hd, h6, NewReply, Reply.bytes, ATYPIPv4,
        ATYPDomain, ATYPIPv6]
  · intro rc ta hd hta
    constructor
    · intro ip4 h4
      simp [Request.Connect, hd, hta, h4, NewReply, Reply.bytes, ATYPIPv4,
        ATYPDomain]
    · intro h6
      simp [Request.Connect, hd, hta, h6, NewReply, Reply.bytes, ATYPIPv4,
        ATYPDomain, ATYPIPv6]

/-- Witness for C5: a CONNECT request to `127.0.0.1:9` whose dial succeeds
with local endpoint `192.168.0.5:4242` gets the success reply carrying
that endpoint. -/
theorem c5_connect_witness :
    Request.Connect ⟨5, 1, 0, 1, [127, 0, 0, 1], [0, 9]⟩
        (some ⟨some ⟨⟨some [192, 168, 0, 5], [192, 168, 0, 5]⟩, 4242⟩,
          "192.168.0.5:4242"⟩)
        (fun _ => .error .errBadRequest) =
      ([[Ver, RepSuccess, 0x00, ATYPIPv4] ++ [192, 168, 0, 5] ++
          portBytes 4242],
        .ok ⟨some ⟨⟨some [192, 168, 0, 5], [192, 168, 0, 5]⟩, 4242⟩,
          "192.168.0.5:4242"⟩) :=
  ((c5_connect ⟨5, 1, 0, 1, [127, 0, 0, 1], [0, 9]⟩
        (some ⟨some ⟨⟨some [192, 168, 0, 5], [192, 168, 0, 5]⟩, 4242⟩,
          "192.168.0.5:4242"⟩)
        (fun _ => .error .errBadRequest)).2
      ⟨some ⟨⟨some [192, 168, 0, 5], [192, 168, 0, 5]⟩, 4242⟩,
        "192.168.0.5:4242"⟩
      ⟨⟨some [192, 168, 0, 5], [192, 168, 0, 5]⟩, 4242⟩ rfl rfl).1
    [192, 168, 0, 5] rfl

/-- C6: each decoder fails with the specified typed error on malformed
input: a wrong version byte in a `NegotiationRequest` or `Request` yields
`ErrVersion`, a wrong sub-negotiation version yields
`ErrUserPassVersion`, and `NMETHODS = 0`, `ULEN = 0`, `PLEN = 0`, a
DOMAIN length prefix of `0`, or an unknown `ATYP` yield
`ErrBadRequest`. -/
theorem c6_decoder_typed_errors :
    (∀ b0 b1 rest, b0 ≠ Ver →
      NewNegotiationRequestFrom (b0 :: b1 :: rest) = .error .errVersion) ∧
    (∀ rest,
      NewNegotiationRequestFrom (Ver :: 0 :: rest) = .error .errBadRequest) ∧
    (∀ b0 b1 rest, b0 ≠ UserPassVer →
      NewUserPassNegotiationRequestFrom (b0 :: b1 :: rest) =
        .error .errUserPassVersion) ∧
    (∀ rest,
      NewUserPassNegotiationRequestFrom (UserPassVer :: 0 :: rest) =
        .error .errBadRequest) ∧
    (∀ ulen uname rest, uname.length = ulen → ulen ≠ 0 →
      NewUserPassNegotiationRequestFrom
          (UserPassVer :: ulen :: (uname ++ 0 :: rest)) =
        .error .errBadRequest) ∧
    (∀ b0 b1 b2 b3 rest, b0 ≠ Ver →
      NewRequestFrom (b0 :: b1 :: b2 :: b3 :: rest) = .error .errVersion) ∧
    (∀ b1 b2 rest,
      NewRequestFrom (Ver :: b1 :: b2 :: ATYPDomain :: 0 :: rest) =
        .error .errBadRequest) ∧
    (∀ b1 b2 b3 rest, b3 ≠ ATYPIPv4 → b3 ≠ ATYPIPv6 → b3 ≠ ATYPDomain →
      NewRequestFrom (Ver :: b1 :: b2 :: b3 :: rest) =
        .error .errBadRequest) := by
  refine ⟨?_, ?_, ?_, ?_, ?_, ?_, ?_, ?_⟩
  · intro b0 b1 rest h
    simp [NewNegotiationRequestFrom, h]
  · intro rest
    simp [NewNegotiationRequestFrom, Ver]
  · intro b0 b1 rest h
    simp [NewUserPassNegotiationRequestFrom, h]
  · intro rest
    simp [NewUserPassNegotiationRequestFrom, UserPassVer]
  · intro ulen uname rest hlen hne
    have hle : ulen + 1 ≤ (uname ++ 0 :: rest).length := by
      simp [hlen]
    have ht : (uname ++ 0 :: rest).take (ulen + 1) = uname ++ [0] := by
      have h1 : uname.take (ulen + 1) = uname :=
        List.take_of_length_le (by omega)
      have h2 : ulen + 1 - uname.length = 1 := by omega
      rw [List.take_append_eq_append_take, h1, h2]
      rfl
    have hge : (uname ++ [0])[ulen]? = some 0 := by
      rw [List.getElem?_append_right (by omega)]
      have h3 : ulen - uname.length = 0 := by omega
      rw [h3]
      rfl
    have hle2 : ulen + 1 ≤ uname.length + (rest.length + 1) := by omega
    simp [NewUserPassNegotiationRequestFrom, UserPassVer, hne, readN, hle,
      hle2, ht, hge]
  · intro b0 b1 b2 b3 rest h
    simp [NewRequestFrom, h]
  · intro b1 b2 rest
    simp [NewRequestFrom, Ver, ATYPIPv4, ATYPIPv6, ATYPDomain]
  · intro b1 b2 b3 rest h4 h6 hd
    simp [NewRequestFrom, Ver, h4, h6, hd]

/-- Witness for C6: one concrete malformed input per decoder error. -/
theorem c6_decoder_typed_errors_witness :
    NewNegotiationRequestFrom [4, 1, 0] = .error .errVersion ∧
    NewNegotiationRequestFrom [5, 0] = .error .errBadRequest ∧
    NewUserPassNegotiationRequestFrom [2, 1, 97] =
      .error .errUserPassVersion ∧
    NewUserPassNegotiationRequestFrom [1, 0] = .error .errBadRequest ∧
    NewUserPassNegotiationRequestFrom [1, 1, 97, 0] =
      .error .errBadRequest ∧
    NewRequestFrom [4, 1, 0, 1, 0, 0, 0, 0, 0, 9] = .error .errVersion ∧
    NewRequestFrom [5, 1, 0, 3, 0, 1, 2] = .error .errBadRequest ∧
    NewRequestFrom [5, 1, 0, 2, 0, 0] = .error .errBadRequest :=
  ⟨c6_decoder_typed_errors.1 4 1 [0] (by decide),
    c6_decoder_typed_errors.2.1 [],
    c6_decoder_typed_errors.2.2.1 2 1 [97] (by decide),
    c6_decoder_typed_errors.2.2.2.1 [],
    c6_decoder_typed_errors.2.2.2.2.1 1 [97] [] rfl (by decide),
    c6_decoder_typed_errors.2.2.2.2.2.1 4 1 0 1 [0, 0, 0, 0, 0, 9]
      (by decide),
    c6_decoder_typed_errors.2.2.2.2.2.2.1 1 0 [1, 2],
    c6_decoder_typed_errors.2.2.2.2.2.2.2 1 0 2 [0, 0] (by decide)
      (by decide) (by decide)⟩

/-- C7 counterexample: the 10-byte IPv4 datagram
`00 00 00 01 7F 00 00 01 00 09` — exactly the minimum size, all fields
valid, empty payload — is rejected with `ErrBadRequest`, not decoded
successfully as the claim states. -/
theorem c7_min_size_counterexample :
    NewDatagramFromBytes [0, 0, 0, ATYPIPv4, 127, 0, 0, 1, 0, 9] =
      .error .errBadRequest := by
  rfl

/-- C7 as amended: a packet buffer of exactly the minimum legal size for
its ATYP (10 bytes for IPv4, 22 for IPv6, 8 for a one-byte domain) with
otherwise valid fields fails to decode with `ErrBadRequest`; with one
payload byte appended the same packet decodes successfully. -/
theorem c7_min_size_rejected :
    (∀ r1 r2 f a p1 p2, List.length a = 4 →
      NewDatagramFromBytes (r1 :: r2 :: f :: ATYPIPv4 :: (a ++ [p1, p2])) =
        .error .errBadRequest) ∧
    (∀ r1 r2 f a p1 p2, List.length a = 16 →
      NewDatagramFromBytes (r1 :: r2 :: f :: ATYPIPv6 :: (a ++ [p1, p2])) =
        .error .errBadRequest) ∧
    (∀ r1 r2 f c p1 p2,
      NewDatagramFromBytes [r1, r2, f, ATYPDomain, 1, c, p1, p2] =
        .error .errBadRequest) ∧
    (∀ r1 r2 f a p1 p2 x, List.length a = 4 →
      NewDatagramFromBytes
          (r1 :: r2 :: f :: ATYPIPv4 :: (a ++ [p1, p2, x])) =
        .ok ⟨[r1, r2], f, ATYPIPv4, a, [p1, p2], [x]⟩) ∧
    (∀ r1 r2 f a p1 p2 x, List.length a = 16 →
      NewDatagramFromBytes
          (r1 :: r2 :: f :: ATYPIPv6 :: (a ++ [p1, p2, x])) =
        .ok ⟨[r1, r2], f, ATYPIPv6, a, [p1, p2], [x]⟩) ∧
    (∀ r1 r2 f c p1 p2 x,
      NewDatagramFromBytes [r1, r2, f, ATYPDomain, 1, c, p1, p2, x] =
        .ok ⟨[r1, r2], f, ATYPDomain, [1, c], [p1, p2], [x]⟩) := by
  refine ⟨?_, ?_, ?_, ?_, ?_, ?_⟩
  · intro r1 r2 f a p1 p2 hlen
    have hlt : ¬((a ++ [p1, p2]).length < 4) := by
      simp [hlen]
    have htake : (a ++ [p1, p2]).take 4 = a := by
      rw [← hlen]
      exact List.take_left _ _
    have hdrop : (a ++ [p1, p2]).drop 4 = [p1, p2] := by
      rw [← hlen]
      exact List.drop_left _ _
    simp [NewDatagramFromBytes, NewDatagramFromBytes.finishDatagram,
      ATYPIPv4, hlt, htake, hdrop]
  · intro r1 r2 f a p1 p2 hlen
    have hlt : ¬((a ++ [p1, p2]).length < 16) := by
      simp [hlen]
    have htake : (a ++ [p1, p2]).take 16 = a := by
      rw [← hlen]
      exact List.take_left _ _
    have hdrop : (a ++ [p1, p2]).drop 16 = [p1, p2] := by
      rw [← hlen]
      exact List.drop_left _ _
    simp [NewDatagramFromBytes, NewDatagramFromBytes.finishDatagram,
      ATYPIPv4, ATYPIPv6, hlt, htake, hdrop]
  · intro r1 r2 f c p1 p2
    simp [NewDatagramFromBytes, NewDatagramFromBytes.finishDatagram,
      ATYPIPv4, ATYPIPv6, ATYPDomain]
  · intro r1 r2 f a p1 p2 x hlen
    have hlt : ¬((a ++ [p1, p2, x]).length < 4) := by
      simp [hlen]
    have htake : (a ++ [p1, p2, x]).take 4 = a := by
      rw [← hlen]
      exact List.take_left _ _
    have hdrop : (a ++ [p1, p2, x]).drop 4 = [p1, p2, x] := by
      rw [← hlen]
      exact List.drop_left _ _
    simp [NewDatagramFromBytes, NewDatagramFromBytes.finishDatagram,
      ATYPIPv4, hlt, htake, hdrop]
    omega
  · intro r1 r2 f a p1 p2 x hlen
    have hlt : ¬((a ++ [p1, p2, x]).length < 16) := by
      simp [hlen]
    have htake : (a ++ [p1, p2, x]).take 16 = a := by
      rw [← hlen]
      exact List.take_left _ _
    have hdrop : (a ++ [p1, p2, x]).drop 16 = [p1, p2, x] := by
      rw [← hlen]
      exact List.drop_left _ _
    simp [NewDatagramFromBytes, NewDatagramFromBytes.finishDatagram,
      ATYPIPv4, ATYPIPv6, hlt, htake, hdrop]
    omega
  · intro r1 r2 f c p1 p2 x
    simp [NewDatagramFromBytes, NewDatagramFromBytes.finishDatagram,
      ATYPIPv4, ATYPIPv6, ATYPDomain]

/-- Witness for C7 (amended): the minimum-size IPv4 datagram above is
rejected, as proved by instantiating the general statement. -/
theorem c7_min_size_rejected_witness :
    NewDatagramFromBytes (0 :: 0 :: 0 :: ATYPIPv4 ::
        ([127, 0, 0, 1] ++ [0, 9])) = .error .errBadRequest :=
  c7_min_size_rejected.1 0 0 0 [127, 0, 0, 1] 0 9 (by decide)

/-- C8 counterexample: the legal datagram value with `RSV = 0x0000`,
`FRAG = 0x00`, `ATYP = IPV4`, address `127.0.0.1`, port `9` and empty
payload does not survive the round trip: decoding its encoding fails with
`ErrBadRequest` instead of returning the value. -/
theorem c8_roundtrip_counterexample :
    NewDatagramFromBytes
        (Datagram.Bytes ⟨[0, 0], 0, ATYPIPv4, [127, 0, 0, 1], [0, 9], []⟩) =
      .error .errBadRequest := by
  rfl

/-- C8 as amended: for every legal datagram value (RSV `0x0000`, FRAG
`0x00`, ATYP in {IPV4, DOMAIN, IPV6}, address of the matching length with
the DOMAIN length prefix retained, 2-byte port) whose payload is
non-empty, decoding the encoding returns the value again. -/
theorem c8_roundtrip (v : Datagram) (hrsv : v.rsv = [0, 0])
    (hfrag : v.frag = 0) (hport : v.dstPort.length = 2)
    (hdata : v.data ≠ [])
    (hatyp : (v.atyp = ATYPIPv4 ∧ v.dstAddr.length = 4) ∨
      (v.atyp = ATYPIPv6 ∧ v.dstAddr.length = 16) ∨
      (v.atyp = ATYPDomain ∧
        ∃ l as, v.dstAddr = l :: as ∧ as.length = l ∧ l ≠ 0)) :
    NewDatagramFromBytes v.Bytes = .ok v := by
  obtain ⟨rsv, frag, atyp, dstAddr, dstPort, data⟩ := v
  simp only at hrsv hfrag hport hdata hatyp
  subst hrsv hfrag
  have hdlen : 0 < data.length := List.length_pos.mpr hdata
  have hnle : ¬((dstPort ++ data).length ≤ 2) := by
    rw [List.length_append, hport]
    omega
  have htake2 : (dstPort ++ data).take 2 = dstPort := by
    rw [← hport]
    exact List.take_left _ _
  have hdrop2 : (dstPort ++ data).drop 2 = data := by
    rw [← hport]
    exact List.drop_left _ _
  rcases hatyp with ⟨h1, hlen⟩ | ⟨h1, hlen⟩ | ⟨h1, l, as, haddr, hlen, hne⟩
  · subst h1
    have hlt : ¬((dstAddr ++ (dstPort ++ data)).length < 4) := by
      simp [hlen]
    have htake : (dstAddr ++ (dstPort ++ data)).take 4 = dstAddr := by
      rw [← hlen]
      exact List.take_left _ _
    have hdrop : (dstAddr ++ (dstPort ++ data)).drop 4 = dstPort ++ data := by
      rw [← hlen]
      exact List.drop_left _ _
    simp [Datagram.Bytes, NewDatagramFromBytes,
      NewDatagramFromBytes.finishDatagram, ATYPIPv4, hlt, htake, hdrop,
      hnle, htake2, hdrop2]
    rw [if_neg (by omega), if_neg (by omega)]
  · subst h1
    have hlt : ¬((dstAddr ++ (dstPort ++ data)).length < 16) := by
      simp [hlen]
    have htake : (dstAddr ++ (dstPort ++ data)).take 16 = dstAddr := by
      rw [← hlen]
      exact List.take_left _ _
    have hdrop : (dstAddr ++ (dstPort ++ data)).drop 16 = dstPort ++ data := by
      rw [← hlen]
      exact List.drop_left _ _
    simp [Datagram.Bytes, NewDatagramFromBytes,
      NewDatagramFromBytes.finishDatagram, ATYPIPv4, ATYPIPv6, hlt, htake,
      hdrop, hnle, htake2, hdrop2]
    rw [if_neg (by omega), if_neg (by omega)]
  · subst h1 haddr
    have hlt : ¬((as ++ (dstPort ++ data)).length < l) := by
      simp [hlen]
    have htake : (as ++ (dstPort ++ data)).take l = as := by
      rw [← hlen]
      exact List.take_left _ _
    have hdrop : (as ++ (dstPort ++ data)).drop l = dstPort ++ data := by
      rw [← hlen]
      exact List.drop_left _ _
    simp [Datagram.Bytes, NewDatagramFromBytes,
      NewDatagramFromBytes.finishDatagram, ATYPIPv4, ATYPIPv6, ATYPDomain,
      hne, hlt, htake, hdrop, hnle, htake2, hdrop2]
    rw [if_neg (by omega), if_neg (by omega)]

/-- Witness for C8 (amended): the one-byte-payload IPv4 datagram value
round-trips. -/
theorem c8_roundtrip_witness :
    NewDatagramFromBytes
        (Datagram.Bytes
          ⟨[0, 0], 0, ATYPIPv4, [127, 0, 0, 1], [0, 9], [80]⟩) =
      .ok ⟨[0, 0], 0, ATYPIPv4, [127, 0, 0, 1], [0, 9], [80]⟩ :=
  c8_roundtrip ⟨[0, 0], 0, ATYPIPv4, [127, 0, 0, 1], [0, 9], [80]⟩ rfl rfl
    rfl (by decide) (Or.inl ⟨rfl, rfl⟩)

/-- `send` aborts with "Association closed" exactly when the channel
receive is ready. -/
theorem udpSend_closed_iff (ch : Option Channel) (c : ConnU) :
    udpSend ch c = .error .assocClosed ↔ chanRecvReady ch = true := by
  unfold udpSend
  by_cases h : chanRecvReady ch
  · simp [h]
  · by_cases hw : c.writeOk
    · simp [h, hw]
    · simp [h, hw]

/-- Behaviour of `udpHandleCore` common to all branches: it reports the
channel it was given, never returns "not associated", aborts a send only
when the channel receive is ready, writes the datagram's payload whenever
it succeeds, and hands the spawned upstream reader exactly its own
channel. -/
theorem udpSend_error_cases (ch : Option Channel) (c : ConnU) (e : UDPErr)
    (h : udpSend ch c = .error e) :
    e = .assocClosed ∨ e = .writeFailed := by
  unfold udpSend at h
  by_cases hr : chanRecvReady ch
  · rw [if_pos hr] at h
    injection h with h
    exact Or.inl h.symm
  · rw [if_neg hr] at h
    by_cases hw : c.writeOk
    · rw [if_pos hw] at h
      exact absurd h (by simp)
    · rw [if_neg hw] at h
      injection h with h
      exact Or.inr h.symm

theorem udpHandleCore_spec (s : Server) (st : UDPState) (src : String)
    (d : Datagram) (dst : String) (dial : String → String → Option ConnU)
    (ch : Option Channel) :
    (udpHandleCore s st src d dst dial ch).ch = some ch ∧
    (∀ a, (udpHandleCore s st src d dst dial ch).result ≠
      .error (.notAssociated a)) ∧
    ((udpHandleCore s st src d dst dial ch).result = .error .assocClosed →
      chanRecvReady ch = true) ∧
    ((udpHandleCore s st src d dst dial ch).result = .ok () →
      (udpHandleCore s st src d dst dial ch).wrotePayload = some d.data) ∧
    (∀ x, (udpHandleCore s st src d dst dial ch).spawnedReader = some x →
      x = ch) := by
  unfold udpHandleCore
  cases h1 : st.udpExchanges.lookup (src ++ dst) with
  | some ue =>
    cases h2 : udpSend ch ue.remoteConn with
    | error e =>
      rcases udpSend_error_cases ch ue.remoteConn e h2 with he | he
      · subst he
        have hr : chanRecvReady ch = true :=
          (udpSend_closed_iff ch ue.remoteConn).mp h2
        simp [h2, hr]
      · subst he
        simp [h2]
    | ok u =>
      cases u
      simp [h2]
  | none =>
    cases h2 : dial ((st.udpSrc.lookup (src ++ dst)).getD "") dst with
    | some rc =>
      cases h3 : udpSend ch (⟨src, rc⟩ : UDPExchangeT).remoteConn with
      | error e =>
        rcases udpSend_error_cases ch rc e h3 with he | he
        · subst he
          have hr : chanRecvReady ch = true :=
            (udpSend_closed_iff ch rc).mp h3
          simp [h2, h3, hr]
        · subst he
          simp [h2, h3]
      | ok u =>
        cases u
        simp [h2, h3]
    | none =>
      cases h3 : dial "" dst with
      | some rc =>
        cases h4 : udpSend ch (⟨src, rc⟩ : UDPExchangeT).remoteConn with
        | error e =>
          rcases udpSend_error_cases ch rc e h4 with he | he
          · subst he
            have hr : chanRecvReady ch = true :=
              (udpSend_closed_iff ch rc).mp h4
            simp [h2, h3, h4, hr]
          · subst he
            simp [h2, h3, h4]
        | ok u =>
          cases u
          simp [h2, h3, h4]
      | none =>
        simp [h2, h3]

/-- `udpHandleCore` neither reads nor writes the `AssociatedUDP` table:
its outcome on a state with that table replaced is the same outcome with
the table carried through unchanged. -/
theorem udpHandleCore_assoc_independent (s : Server) (st : UDPState)
    (assoc : List (String × Channel)) (src : String) (d : Datagram)
    (dst : String) (dial : String → String → Option ConnU)
    (ch : Option Channel) :
    udpHandleCore s { st with associatedUDP := assoc } src d dst dial ch =
      { udpHandleCore s st src d dst dial ch with
          state :=
            { (udpHandleCore s st src d dst dial ch).state with
                associatedUDP := assoc } } := by
  obtain ⟨assoc0, ex, srcm⟩ := st
  unfold udpHandleCore
  cases h1 : ex.lookup (src ++ dst) with
  | some ue =>
    simp only [h1]
    cases h2 : udpSend ch ue.remoteConn with
    | error e => simp [h2]
    | ok u =>
      cases u
      simp [h2]
  | none =>
    simp only [h1]
    cases h2 : dial ((srcm.lookup (src ++ dst)).getD "") dst with
    | some rc =>
      simp only [h2]
      by_cases hl : ((srcm.lookup (src ++ dst)).getD "") = ""
      · cases h4 : udpSend ch (⟨src, rc⟩ : UDPExchangeT).remoteConn with
        | error e => simp [h4, hl]
        | ok u =>
          cases u
          simp [h4, hl]
      · cases h4 : udpSend ch (⟨src, rc⟩ : UDPExchangeT).remoteConn with
        | error e => simp [h4, hl]
        | ok u =>
          cases u
          simp [h4, hl]
    | none =>
      cases h3 : dial "" dst with
      | some rc =>
        simp only [h2, h3]
        cases h4 : udpSend ch (⟨src, rc⟩ : UDPExchangeT).remoteConn with
        | error e => simp [h4]
        | ok u =>
          cases u
          simp [h4]
      | none =>
        simp [h2, h3]

/-- C10: `UDPHandle` returns the "not associated" error iff `LimitUDP`
is enabled and the association table has no entry for the source; with
`LimitUDP` disabled the channel variable stays `nil`, no send is aborted
by an association close, an upstream reader spawned in that mode can
never be aborted by one either, every successful call wrote the
datagram's payload, and the whole outcome is independent of the
association table's contents. -/
theorem c10_udpHandle_association (s : Server) (st : UDPState)
    (src : String) (d : Datagram) (dst : String)
    (dial : String → String → Option ConnU) :
    ((s.UDPHandle st src d dst dial).result = .error (.notAssociated src) ↔
      s.limitUDP = true ∧ st.associatedUDP.lookup src = none) ∧
    (s.limitUDP = false →
      (s.UDPHandle st src d dst dial).ch = some none ∧
      (s.UDPHandle st src d dst dial).result ≠ .error .assocClosed ∧
      ((s.UDPHandle st src d dst dial).result = .ok () →
        (s.UDPHandle st src d dst dial).wrotePayload = some d.data) ∧
      (∀ x, (s.UDPHandle st src d dst dial).spawnedReader = some x →
        upstreamReaderAborts x = false) ∧
      (∀ assoc,
        s.UDPHandle { st with associatedUDP := assoc } src d dst dial =
          { s.UDPHandle st src d dst dial with
              state :=
                { (s.UDPHandle st src d dst dial).state with
                    associatedUDP := assoc } })) := by
  constructor
  · constructor
    · intro hres
      cases hl : s.limitUDP with
      | false =>
        exfalso
        have hspec := udpHandleCore_spec s st src d dst dial none
        apply hspec.2.1 src
        rw [← hres]
        simp [Server.UDPHandle, hl]
      | true =>
        cases ha : st.associatedUDP.lookup src with
        | none => exact ⟨rfl, rfl⟩
        | some c =>
          exfalso
          have hspec := udpHandleCore_spec s st src d dst dial (some c)
          apply hspec.2.1 src
          rw [← hres]
          simp [Server.UDPHandle, hl, ha]
    · rintro ⟨hl, ha⟩
      simp [Server.UDPHandle, hl, ha]
  · intro hl
    have hspec := udpHandleCore_spec s st src d dst dial none
    have hunf : s.UDPHandle st src d dst dial =
        udpHandleCore s st src d dst dial none := by
      simp [Server.UDPHandle, hl]
    refine ⟨?_, ?_, ?_, ?_, ?_⟩
    · rw [hunf]
      exact hspec.1
    · rw [hunf]
      intro he
      have := hspec.2.2.1 he
      simp [chanRecvReady] at this
    · rw [hunf]
      exact hspec.2.2.2.1
    · rw [hunf]
      intro x hx
      have hxc := hspec.2.2.2.2 x hx
      subst hxc
      simp [upstreamReaderAborts, chanRecvReady]
    · intro assoc
      have h1 : s.UDPHandle { st with associatedUDP := assoc } src d dst
          dial = udpHandleCore s { st with associatedUDP := assoc } src d
            dst dial none := by
        simp [Server.UDPHandle, hl]
      rw [h1, hunf]
      exact udpHandleCore_assoc_independent s st assoc src d dst dial none

/-- Witness for C10: with `LimitUDP` disabled, an empty state and a dial
oracle that always succeeds, the call does not return "not associated"
even though the association table is empty. -/
theorem c10_udpHandle_association_witness :
    ((Server.UDPHandle
          ⟨[], [], MethodNone, [CmdConnect, CmdUDP], 0, 0, false, [], []⟩
          ⟨[], [], []⟩ "1.2.3.4:5" ⟨[0, 0], 0, 1, [8, 8, 8, 8], [0, 53], [1]⟩
          "8.8.8.8:53"
          (fun _ _ => some ⟨"10.0.0.1:40000", "8.8.8.8:53", true⟩)).result =
        .error (.notAssociated "1.2.3.4:5") ↔
      Server.limitUDP
          ⟨[], [], MethodNone, [CmdConnect, CmdUDP], 0, 0, false, [], []⟩ =
        true ∧
      List.lookup "1.2.3.4:5"
          (UDPState.associatedUDP ⟨[], [], []⟩) = none) :=
  (c10_udpHandle_association
      ⟨[], [], MethodNone, [CmdConnect, CmdUDP], 0, 0, false, [], []⟩
      ⟨[], [], []⟩ "1.2.3.4:5" ⟨[0, 0], 0, 1, [8, 8, 8, 8], [0, 53], [1]⟩
      "8.8.8.8:53"
      (fun _ _ => some ⟨"10.0.0.1:40000", "8.8.8.8:53", true⟩)).1

end Socks5
